import Mathlib

/-!
Verification of the Pong core in `src/assets/files/PongV5.py`.

The shared mutable game state (ball position `bouleX`/`bouleY`, ball
velocity `plusX`/`plusY`, paddle top edges `a1`/`a2`, scores `SJ1`/`SJ2`)
is embedded as a record.  Ball coordinates and velocity are rationals
(Python floats appear only through the factor 1.259; we model real
arithmetic exactly).  Paddle tops move in integer steps of 25, scores only
count up.  The key handler `ControlesJ1etJ2` and the tick `bouboule` are
translated statement by statement from the source, including the dead
`plusX` sign flip that the goal branches later overwrite.  Label updates
sent to the display (`Score1.set` / `Score2.set`) are returned as a list of
(player, text) events.
-/

structure GameState where
  bouleX : ℚ
  bouleY : ℚ
  plusX : ℚ
  plusY : ℚ
  a1 : ℤ
  a2 : ℤ
  SJ1 : ℕ
  SJ2 : ℕ
deriving DecidableEq, Repr

/-- Initial values from lines 27-38: ball at (306,256), velocity (4,6),
paddles at 140, scores 0. -/
def initState : GameState :=
  { bouleX := 306, bouleY := 256, plusX := 4, plusY := 6,
    a1 := 140, a2 := 140, SJ1 := 0, SJ2 := 0 }

/-- Key handler, lines 60-82: `s`/`z` move paddle 1 down/up by 25,
`Down`/`Up` move paddle 2, each guarded by the arena bounds; any other
key (or a failed guard) is a no-op. -/
def ControlesJ1etJ2 (key : String) (s : GameState) : GameState :=
  if key = "s" ∧ s.a1 + 25 ≤ 446 then { s with a1 := s.a1 + 25 }
  else if key = "z" ∧ s.a1 - 25 ≥ -25 then { s with a1 := s.a1 - 25 }
  else if key = "Down" ∧ s.a2 + 25 ≤ 446 then { s with a2 := s.a2 + 25 }
  else if key = "Up" ∧ s.a2 - 25 ≥ -25 then { s with a2 := s.a2 - 25 }
  else s

/-- Lines 93-94: `bouleX += plusX; bouleY += plusY`. -/
def integrate (s : GameState) : GameState :=
  { s with bouleX := s.bouleX + s.plusX, bouleY := s.bouleY + s.plusY }

/-- Lines 102-106: vertical wall reflection, strict comparisons. -/
def wallStep (s : GameState) : GameState :=
  if s.bouleY < 10 then { s with plusY := s.plusY * (-1) }
  else if s.bouleY > 486 then { s with plusY := s.plusY * (-1) }
  else s

/-- Lines 110-126: goal detection.  Each branch increments a score, flips
`plusX`, teleports the ball to (306,256), emits the label text, then
overwrites the velocity with the restart vector (2,3).  The sequential
`let`s mirror the source's assignment order. -/
def goalStep (s : GameState) : GameState × List (ℕ × String) :=
  if s.bouleX < 1 then
    let s1 := { s with SJ2 := s.SJ2 + 1 }
    let s2 := { s1 with plusX := s1.plusX * (-1) }
    let s3 := { s2 with bouleX := 306, bouleY := 256 }
    let ev : ℕ × String := (2, "J2:" ++ toString s3.SJ2)
    let s4 := { s3 with plusY := 3 }
    let s5 := { s4 with plusX := 2 }
    (s5, [ev])
  else if s.bouleX > 612 then
    let s1 := { s with SJ1 := s.SJ1 + 1 }
    let s2 := { s1 with plusX := s1.plusX * (-1) }
    let s3 := { s2 with bouleX := 306, bouleY := 256 }
    let ev : ℕ × String := (1, "J1:" ++ toString s3.SJ1)
    let s4 := { s3 with plusY := 3 }
    let s5 := { s4 with plusX := 2 }
    (s5, [ev])
  else (s, [])

/-- Lines 130-140: paddle collisions.  `bouleX < 18` against paddle 1 or
`bouleX > 592` against paddle 2, with the ball's y strictly inside the
paddle span; the hit flips `plusX` and scales both components by 1.259. -/
def paddleStep (s : GameState) : GameState :=
  if s.bouleX < 18 ∧ (s.a1 : ℚ) < s.bouleY ∧ s.bouleY < (s.a1 : ℚ) + 80 then
    let s1 := { s with plusX := s.plusX * (-1) }
    let s2 := { s1 with plusY := s1.plusY * 1.259 }
    { s2 with plusX := s2.plusX * 1.259 }
  else if s.bouleX > 592 ∧ (s.a2 : ℚ) < s.bouleY ∧ s.bouleY < (s.a2 : ℚ) + 80 then
    let s1 := { s with plusX := s.plusX * (-1) }
    let s2 := { s1 with plusY := s1.plusY * 1.259 }
    { s2 with plusX := s2.plusX * 1.259 }
  else s

/-- One tick of `bouboule` (lines 90-140), written monolithically in the
source's statement order: integrate, then walls, then goals, then paddles.
The redraw and `after(50, bouboule)` calls touch no game state and are
dropped; the emitted label events are returned. -/
def bouboule (s : GameState) : GameState × List (ℕ × String) :=
  let s0 := { s with bouleX := s.bouleX + s.plusX, bouleY := s.bouleY + s.plusY }
  let s1 :=
    if s0.bouleY < 10 then { s0 with plusY := s0.plusY * (-1) }
    else if s0.bouleY > 486 then { s0 with plusY := s0.plusY * (-1) }
    else s0
  let p : GameState × List (ℕ × String) :=
    if s1.bouleX < 1 then
      let t1 := { s1 with SJ2 := s1.SJ2 + 1 }
      let t2 := { t1 with plusX := t1.plusX * (-1) }
      let t3 := { t2 with bouleX := 306, bouleY := 256 }
      let ev : ℕ × String := (2, "J2:" ++ toString t3.SJ2)
      let t4 := { t3 with plusY := 3 }
      let t5 := { t4 with plusX := 2 }
      (t5, [ev])
    else if s1.bouleX > 612 then
      let t1 := { s1 with SJ1 := s1.SJ1 + 1 }
      let t2 := { t1 with plusX := t1.plusX * (-1) }
      let t3 := { t2 with bouleX := 306, bouleY := 256 }
      let ev : ℕ × String := (1, "J1:" ++ toString t3.SJ1)
      let t4 := { t3 with plusY := 3 }
      let t5 := { t4 with plusX := 2 }
      (t5, [ev])
    else (s1, [])
  let s2 := p.1
  let s3 :=
    if s2.bouleX < 18 ∧ (s2.a1 : ℚ) < s2.bouleY ∧ s2.bouleY < (s2.a1 : ℚ) + 80 then
      let u1 := { s2 with plusX := s2.plusX * (-1) }
      let u2 := { u1 with plusY := u1.plusY * 1.259 }
      { u2 with plusX := u2.plusX * 1.259 }
    else if s2.bouleX > 592 ∧ (s2.a2 : ℚ) < s2.bouleY ∧ s2.bouleY < (s2.a2 : ℚ) + 80 then
      let u1 := { s2 with plusX := s2.plusX * (-1) }
      let u2 := { u1 with plusY := u1.plusY * 1.259 }
      { u2 with plusX := u2.plusX * 1.259 }
    else s2
  (s3, p.2)

/-- The game state just before the paddle-collision checks of a tick. -/
def preCollision (s : GameState) : GameState :=
  (goalStep (wallStep (integrate s))).1

/-- Paddle-1 collision condition (line 130). -/
def paddle1Cond (s : GameState) : Prop :=
  s.bouleX < 18 ∧ (s.a1 : ℚ) < s.bouleY ∧ s.bouleY < (s.a1 : ℚ) + 80

/-- Paddle-2 collision condition (line 137). -/
def paddle2Cond (s : GameState) : Prop :=
  s.bouleX > 592 ∧ (s.a2 : ℚ) < s.bouleY ∧ s.bouleY < (s.a2 : ℚ) + 80

instance (s : GameState) : Decidable (paddle1Cond s) := by
  unfold paddle1Cond; infer_instance

instance (s : GameState) : Decidable (paddle2Cond s) := by
  unfold paddle2Cond; infer_instance

/-- Either paddle's collision condition. -/
def paddleCond (s : GameState) : Prop := paddle1Cond s ∨ paddle2Cond s

instance (s : GameState) : Decidable (paddleCond s) := by
  unfold paddleCond; infer_instance

/-- The two event sources mutating the game state: a key press or a tick. -/
inductive Op where
  | key : String → Op
  | tick : Op

/-- Apply one operation to the state (events dropped). -/
def applyOp : Op → GameState → GameState
  | Op.key k, s => ControlesJ1etJ2 k s
  | Op.tick, s => (bouboule s).1

/-- Apply a sequence of key events. -/
def applyKeys (ks : List String) (s : GameState) : GameState :=
  ks.foldl (fun t k => ControlesJ1etJ2 k t) s

/-- Sample state whose next tick crosses the right baseline (x = 619 > 612). -/
def wC1 : GameState :=
  { bouleX := 615, bouleY := 300, plusX := 4, plusY := 6,
    a1 := 140, a2 := 140, SJ1 := 0, SJ2 := 0 }

/-- Sample state whose next two ticks each hit a paddle: the first tick
lands at x = 10 on paddle 1, the rebound at x = 601.73 on paddle 2. -/
def wC2 : GameState :=
  { bouleX := 480, bouleY := 200, plusX := -470, plusY := 0,
    a1 := 140, a2 := 140, SJ1 := 0, SJ2 := 0 }

/-- Sample state whose next tick ends above the top wall (y = -4 < 10). -/
def wC3a : GameState :=
  { bouleX := 100, bouleY := 2, plusX := 4, plusY := -6,
    a1 := 140, a2 := 140, SJ1 := 0, SJ2 := 0 }

/-- Sample state whose next tick stays inside the walls (y = 262). -/
def wC3b : GameState :=
  { bouleX := 100, bouleY := 256, plusX := 4, plusY := 6,
    a1 := 140, a2 := 140, SJ1 := 0, SJ2 := 0 }

/-- Sample state whose next tick crosses the left baseline (x = -14 < 1). -/
def wC4 : GameState :=
  { bouleX := -10, bouleY := 200, plusX := -4, plusY := 6,
    a1 := 140, a2 := 140, SJ1 := 3, SJ2 := 5 }

/-- Sample state whose next tick crosses the left baseline (x = -4 < 1). -/
def wC5 : GameState :=
  { bouleX := -6, bouleY := 100, plusX := 2, plusY := 3,
    a1 := 140, a2 := 140, SJ1 := 0, SJ2 := 0 }

/-- Sample state whose next tick crosses the left baseline (x = -1 < 1)
with score counter 0, so the emitted label text is for count 1. -/
def wC8 : GameState :=
  { bouleX := -3, bouleY := 200, plusX := 2, plusY := 3,
    a1 := 140, a2 := 140, SJ1 := 0, SJ2 := 0 }

/- ## Helper lemmas -/

theorem wallStep_bouleX (s : GameState) : (wallStep s).bouleX = s.bouleX := by
  unfold wallStep; split_ifs <;> rfl

theorem wallStep_bouleY (s : GameState) : (wallStep s).bouleY = s.bouleY := by
  unfold wallStep; split_ifs <;> rfl

theorem wallStep_plusX (s : GameState) : (wallStep s).plusX = s.plusX := by
  unfold wallStep; split_ifs <;> rfl

theorem wallStep_a1 (s : GameState) : (wallStep s).a1 = s.a1 := by
  unfold wallStep; split_ifs <;> rfl

theorem wallStep_a2 (s : GameState) : (wallStep s).a2 = s.a2 := by
  unfold wallStep; split_ifs <;> rfl

theorem wallStep_SJ1 (s : GameState) : (wallStep s).SJ1 = s.SJ1 := by
  unfold wallStep; split_ifs <;> rfl

theorem wallStep_SJ2 (s : GameState) : (wallStep s).SJ2 = s.SJ2 := by
  unfold wallStep; split_ifs <;> rfl

theorem wallStep_absY (s : GameState) : |(wallStep s).plusY| = |s.plusY| := by
  unfold wallStep; split_ifs <;> simp [mul_neg_one, abs_neg]

theorem goalStep_left (s : GameState) (h : s.bouleX < 1) :
    goalStep s =
      ({ s with bouleX := 306, bouleY := 256, plusX := 2, plusY := 3, SJ2 := s.SJ2 + 1 },
        [(2, "J2:" ++ toString (s.SJ2 + 1))]) := by
  unfold goalStep
  rw [if_pos h]

theorem goalStep_right (s : GameState) (h1 : ¬ s.bouleX < 1) (h2 : s.bouleX > 612) :
    goalStep s =
      ({ s with bouleX := 306, bouleY := 256, plusX := 2, plusY := 3, SJ1 := s.SJ1 + 1 },
        [(1, "J1:" ++ toString (s.SJ1 + 1))]) := by
  unfold goalStep
  rw [if_neg h1, if_pos h2]

theorem goalStep_none (s : GameState) (h1 : ¬ s.bouleX < 1) (h2 : ¬ s.bouleX > 612) :
    goalStep s = (s, []) := by
  unfold goalStep
  rw [if_neg h1, if_neg h2]

theorem paddleStep_none (s : GameState)
    (h1 : ¬ paddle1Cond s) (h2 : ¬ paddle2Cond s) : paddleStep s = s := by
  unfold paddle1Cond at h1
  unfold paddle2Cond at h2
  unfold paddleStep
  rw [if_neg h1, if_neg h2]

theorem paddleStep_hit (s : GameState) (h : paddleCond s) :
    (paddleStep s).plusX = s.plusX * (-1) * 1.259 ∧
    (paddleStep s).plusY = s.plusY * 1.259 ∧
    (paddleStep s).bouleX = s.bouleX ∧ (paddleStep s).bouleY = s.bouleY := by
  unfold paddleStep
  rcases h with h | h
  · unfold paddle1Cond at h
    rw [if_pos h]
    exact ⟨rfl, rfl, rfl, rfl⟩
  · unfold paddle2Cond at h
    have hn1 : ¬ (s.bouleX < 18 ∧ (s.a1 : ℚ) < s.bouleY ∧ s.bouleY < (s.a1 : ℚ) + 80) := by
      rintro ⟨hx, -⟩
      have := h.1
      linarith
    rw [if_neg hn1, if_pos h]
    exact ⟨rfl, rfl, rfl, rfl⟩

theorem paddleStep_scores (s : GameState) :
    (paddleStep s).SJ1 = s.SJ1 ∧ (paddleStep s).SJ2 = s.SJ2 := by
  unfold paddleStep; split_ifs <;> exact ⟨rfl, rfl⟩

theorem bouboule_decomp (s : GameState) :
    bouboule s = (paddleStep (goalStep (wallStep (integrate s))).1,
      (goalStep (wallStep (integrate s))).2) := rfl

theorem preCollision_left (s : GameState) (h : (integrate s).bouleX < 1) :
    (preCollision s).bouleX = 306 ∧ (preCollision s).bouleY = 256 ∧
    (preCollision s).plusX = 2 ∧ (preCollision s).plusY = 3 ∧
    (preCollision s).SJ1 = s.SJ1 ∧ (preCollision s).SJ2 = s.SJ2 + 1 ∧
    (goalStep (wallStep (integrate s))).2 = [(2, "J2:" ++ toString (s.SJ2 + 1))] := by
  have hl : (wallStep (integrate s)).bouleX < 1 := by
    rw [wallStep_bouleX]; exact h
  have hs2 : (wallStep (integrate s)).SJ2 = s.SJ2 :=
    (wallStep_SJ2 (integrate s)).trans (rfl : (integrate s).SJ2 = s.SJ2)
  have hs1 : (wallStep (integrate s)).SJ1 = s.SJ1 :=
    (wallStep_SJ1 (integrate s)).trans (rfl : (integrate s).SJ1 = s.SJ1)
  unfold preCollision
  rw [goalStep_left _ hl]
  refine ⟨rfl, rfl, rfl, rfl, hs1, ?_, ?_⟩
  · show (wallStep (integrate s)).SJ2 + 1 = s.SJ2 + 1
    rw [hs2]
  · show [((2 : ℕ), "J2:" ++ toString ((wallStep (integrate s)).SJ2 + 1))]
      = [((2 : ℕ), "J2:" ++ toString (s.SJ2 + 1))]
    rw [hs2]

theorem preCollision_right (s : GameState) (h : (integrate s).bouleX > 612) :
    (preCollision s).bouleX = 306 ∧ (preCollision s).bouleY = 256 ∧
    (preCollision s).plusX = 2 ∧ (preCollision s).plusY = 3 ∧
    (preCollision s).SJ1 = s.SJ1 + 1 ∧ (preCollision s).SJ2 = s.SJ2 ∧
    (goalStep (wallStep (integrate s))).2 = [(1, "J1:" ++ toString (s.SJ1 + 1))] := by
  have hnl : ¬ (wallStep (integrate s)).bouleX < 1 := by
    rw [wallStep_bouleX]; linarith
  have hr : (wallStep (integrate s)).bouleX > 612 := by
    rw [wallStep_bouleX]; exact h
  have hs2 : (wallStep (integrate s)).SJ2 = s.SJ2 :=
    (wallStep_SJ2 (integrate s)).trans (rfl : (integrate s).SJ2 = s.SJ2)
  have hs1 : (wallStep (integrate s)).SJ1 = s.SJ1 :=
    (wallStep_SJ1 (integrate s)).trans (rfl : (integrate s).SJ1 = s.SJ1)
  unfold preCollision
  rw [goalStep_right _ hnl hr]
  refine ⟨rfl, rfl, rfl, rfl, ?_, hs2, ?_⟩
  · show (wallStep (integrate s)).SJ1 + 1 = s.SJ1 + 1
    rw [hs1]
  · show [((1 : ℕ), "J1:" ++ toString ((wallStep (integrate s)).SJ1 + 1))]
      = [((1 : ℕ), "J1:" ++ toString (s.SJ1 + 1))]
    rw [hs1]

theorem no_paddle_at_306 (u : GameState) (h : u.bouleX = 306) :
    ¬ paddle1Cond u ∧ ¬ paddle2Cond u := by
  constructor <;> intro hc
  · unfold paddle1Cond at hc
    rw [h] at hc
    norm_num at hc
  · unfold paddle2Cond at hc
    rw [h] at hc
    norm_num at hc

theorem preCollision_none (s : GameState)
    (h1 : ¬ (integrate s).bouleX < 1) (h2 : ¬ (integrate s).bouleX > 612) :
    preCollision s = wallStep (integrate s) ∧
    (goalStep (wallStep (integrate s))).2 = [] := by
  have hl : ¬ (wallStep (integrate s)).bouleX < 1 := by
    rw [wallStep_bouleX]; exact h1
  have hr : ¬ (wallStep (integrate s)).bouleX > 612 := by
    rw [wallStep_bouleX]; exact h2
  unfold preCollision
  rw [goalStep_none _ hl hr]
  exact ⟨rfl, rfl⟩

/- ## Claim theorems -/

/-- C7: in every tick the ball position immediately after the integration
step equals the prior position plus the current velocity, componentwise
and exactly, while velocity, paddles and scores are untouched; the tick
applies the wall, goal and paddle rules only afterwards. -/
theorem integration_adds_velocity (s : GameState) :
    (integrate s).bouleX = s.bouleX + s.plusX ∧
    (integrate s).bouleY = s.bouleY + s.plusY ∧
    (integrate s).plusX = s.plusX ∧ (integrate s).plusY = s.plusY ∧
    (integrate s).a1 = s.a1 ∧ (integrate s).a2 = s.a2 ∧
    (integrate s).SJ1 = s.SJ1 ∧ (integrate s).SJ2 = s.SJ2 ∧
    bouboule s = (paddleStep (goalStep (wallStep (integrate s))).1,
      (goalStep (wallStep (integrate s))).2) :=
  ⟨rfl, rfl, rfl, rfl, rfl, rfl, rfl, rfl, rfl⟩

/-- C5: a tick runs integration, wall reflection, goal detection and
paddle collision in that order, and whenever a goal branch fires the
ball sits at x = 306 when the paddle-collision bounds are evaluated, so
neither paddle branch can fire in the same tick and the paddle stage
leaves the state unchanged. -/
theorem tick_order_goal_excludes_paddle (s : GameState) :
    bouboule s = (paddleStep (goalStep (wallStep (integrate s))).1,
      (goalStep (wallStep (integrate s))).2) ∧
    ((integrate s).bouleX < 1 ∨ (integrate s).bouleX > 612 →
      (preCollision s).bouleX = 306 ∧
      ¬ paddle1Cond (preCollision s) ∧ ¬ paddle2Cond (preCollision s) ∧
      (bouboule s).1 = preCollision s) := by
  refine ⟨rfl, fun h => ?_⟩
  have h306 : (preCollision s).bouleX = 306 := by
    rcases h with h | h
    · exact (preCollision_left s h).1
    · exact (preCollision_right s h).1
  obtain ⟨hnp1, hnp2⟩ := no_paddle_at_306 _ h306
  refine ⟨h306, hnp1, hnp2, ?_⟩
  show paddleStep (preCollision s) = preCollision s
  exact paddleStep_none _ hnp1 hnp2

/-- Witness for C5 at the concrete state `wC5`, whose tick crosses the
left baseline. -/
theorem tick_order_goal_excludes_paddle_witness :
    ((integrate wC5).bouleX < 1 ∨ (integrate wC5).bouleX > 612) ∧
    (preCollision wC5).bouleX = 306 ∧ ¬ paddle1Cond (preCollision wC5) := by
  have h : (integrate wC5).bouleX < 1 := by
    simp only [integrate, wC5]
    norm_num
  have r := (tick_order_goal_excludes_paddle wC5).2 (Or.inl h)
  exact ⟨Or.inl h, r.1, r.2.1⟩

/-- C1: in every tick in which a goal branch fires (x < 1 or x > 612
after integration), the tick ends with the ball at exactly (306,256) and
velocity exactly (2,3), whatever the pre-goal velocity was: the sign
flip of `plusX` inside the goal branch is overwritten by the reset. -/
theorem goal_resets_ball_and_velocity (s : GameState)
    (h : (integrate s).bouleX < 1 ∨ (integrate s).bouleX > 612) :
    (bouboule s).1.bouleX = 306 ∧ (bouboule s).1.bouleY = 256 ∧
    (bouboule s).1.plusX = 2 ∧ (bouboule s).1.plusY = 3 := by
  have hpre : (preCollision s).bouleX = 306 ∧ (preCollision s).bouleY = 256 ∧
      (preCollision s).plusX = 2 ∧ (preCollision s).plusY = 3 := by
    rcases h with h | h
    · obtain ⟨a, b, c, d, -⟩ := preCollision_left s h
      exact ⟨a, b, c, d⟩
    · obtain ⟨a, b, c, d, -⟩ := preCollision_right s h
      exact ⟨a, b, c, d⟩
  obtain ⟨hnp1, hnp2⟩ := no_paddle_at_306 _ hpre.1
  have hb : (bouboule s).1 = preCollision s := by
    show paddleStep (preCollision s) = preCollision s
    exact paddleStep_none _ hnp1 hnp2
  rw [hb]
  exact hpre

/-- Witness for C1 at the concrete state `wC1`, whose tick crosses the
right baseline with velocity (4,6). -/
theorem goal_resets_ball_and_velocity_witness :
    (integrate wC1).bouleX > 612 ∧
    ((bouboule wC1).1.bouleX = 306 ∧ (bouboule wC1).1.bouleY = 256 ∧
     (bouboule wC1).1.plusX = 2 ∧ (bouboule wC1).1.plusY = 3) := by
  have h : (integrate wC1).bouleX > 612 := by
    simp only [integrate, wC1]
    norm_num
  exact ⟨h, goal_resets_ball_and_velocity wC1 (Or.inr h)⟩

/-- C3: after integration, the wall rule flips the sign of `plusY`
(preserving its magnitude) and leaves `plusX` unchanged exactly when the
ball's y is strictly below 10 or strictly above 486; for y anywhere in
the closed interval [10, 486], including the endpoints, `plusY` is
unchanged by this rule. -/
theorem wall_reflection_rule (s : GameState) :
    ((integrate s).bouleY < 10 ∨ (integrate s).bouleY > 486 →
      (wallStep (integrate s)).plusY = -(integrate s).plusY ∧
      |(wallStep (integrate s)).plusY| = |(integrate s).plusY| ∧
      (wallStep (integrate s)).plusX = (integrate s).plusX) ∧
    (10 ≤ (integrate s).bouleY → (integrate s).bouleY ≤ 486 →
      (wallStep (integrate s)).plusY = (integrate s).plusY) := by
  constructor
  · intro h
    refine ⟨?_, wallStep_absY _, wallStep_plusX _⟩
    unfold wallStep
    rcases h with h | h
    · rw [if_pos h]
      exact mul_neg_one _
    · by_cases h1 : (integrate s).bouleY < 10
      · rw [if_pos h1]
        exact mul_neg_one _
      · rw [if_neg h1, if_pos h]
        exact mul_neg_one _
  · intro h10 h486
    unfold wallStep
    rw [if_neg (by linarith : ¬ (integrate s).bouleY < 10),
      if_neg (by linarith : ¬ (integrate s).bouleY > 486)]

/-- Witness for C3 at the concrete states `wC3a` (tick ends at y = -4,
reflecting) and `wC3b` (tick ends at y = 262, no reflection). -/
theorem wall_reflection_rule_witness :
    ((integrate wC3a).bouleY < 10 ∧
      (wallStep (integrate wC3a)).plusY = -(integrate wC3a).plusY) ∧
    (10 ≤ (integrate wC3b).bouleY ∧ (integrate wC3b).bouleY ≤ 486 ∧
      (wallStep (integrate wC3b)).plusY = (integrate wC3b).plusY) := by
  have ha : (integrate wC3a).bouleY < 10 := by
    simp only [integrate, wC3a]
    norm_num
  have hb1 : (10 : ℚ) ≤ (integrate wC3b).bouleY := by
    simp only [integrate, wC3b]
    norm_num
  have hb2 : (integrate wC3b).bouleY ≤ 486 := by
    simp only [integrate, wC3b]
    norm_num
  exact ⟨⟨ha, ((wall_reflection_rule wC3a).1 (Or.inl ha)).1⟩,
    hb1, hb2, (wall_reflection_rule wC3b).2 hb1 hb2⟩

/- ## Score bookkeeping helpers -/

theorem integrate_plusX (s : GameState) : (integrate s).plusX = s.plusX := rfl

theorem integrate_plusY (s : GameState) : (integrate s).plusY = s.plusY := rfl

theorem integrate_SJ1 (s : GameState) : (integrate s).SJ1 = s.SJ1 := rfl

theorem integrate_SJ2 (s : GameState) : (integrate s).SJ2 = s.SJ2 := rfl

theorem key_scores (k : String) (s : GameState) :
    (ControlesJ1etJ2 k s).SJ1 = s.SJ1 ∧ (ControlesJ1etJ2 k s).SJ2 = s.SJ2 := by
  unfold ControlesJ1etJ2
  split_ifs <;> exact ⟨rfl, rfl⟩

theorem tick_scores (s : GameState) :
    ((integrate s).bouleX < 1 →
      (bouboule s).1.SJ2 = s.SJ2 + 1 ∧ (bouboule s).1.SJ1 = s.SJ1) ∧
    ((integrate s).bouleX > 612 →
      (bouboule s).1.SJ1 = s.SJ1 + 1 ∧ (bouboule s).1.SJ2 = s.SJ2) ∧
    (¬ (integrate s).bouleX < 1 → ¬ (integrate s).bouleX > 612 →
      (bouboule s).1.SJ1 = s.SJ1 ∧ (bouboule s).1.SJ2 = s.SJ2) := by
  have hb : (bouboule s).1 = paddleStep (preCollision s) := rfl
  have hsc := paddleStep_scores (preCollision s)
  refine ⟨fun h => ?_, fun h => ?_, fun h1 h2 => ?_⟩
  · obtain ⟨-, -, -, -, e1, e2, -⟩ := preCollision_left s h
    exact ⟨by rw [hb, hsc.2, e2], by rw [hb, hsc.1, e1]⟩
  · obtain ⟨-, -, -, -, e1, e2, -⟩ := preCollision_right s h
    exact ⟨by rw [hb, hsc.1, e1], by rw [hb, hsc.2, e2]⟩
  · have e := (preCollision_none s h1 h2).1
    constructor
    · rw [hb, hsc.1, e, wallStep_SJ1, integrate_SJ1]
    · rw [hb, hsc.2, e, wallStep_SJ2, integrate_SJ2]

/-- C4: neither score ever decreases under any operation; a key event
never touches the scores, and in a tick the score changes exactly when a
goal branch fires: x < 1 after integration adds 1 to player 2's score
leaving player 1's unchanged, x > 612 adds 1 to player 1's score leaving
player 2's unchanged, and otherwise both are unchanged. -/
theorem score_monotone_and_attribution (s : GameState) (op : Op) (k : String) :
    s.SJ1 ≤ (applyOp op s).SJ1 ∧ s.SJ2 ≤ (applyOp op s).SJ2 ∧
    ((applyOp (Op.key k) s).SJ1 = s.SJ1 ∧ (applyOp (Op.key k) s).SJ2 = s.SJ2) ∧
    ((integrate s).bouleX < 1 →
      (applyOp Op.tick s).SJ2 = s.SJ2 + 1 ∧ (applyOp Op.tick s).SJ1 = s.SJ1) ∧
    ((integrate s).bouleX > 612 →
      (applyOp Op.tick s).SJ1 = s.SJ1 + 1 ∧ (applyOp Op.tick s).SJ2 = s.SJ2) ∧
    (¬ (integrate s).bouleX < 1 → ¬ (integrate s).bouleX > 612 →
      (applyOp Op.tick s).SJ1 = s.SJ1 ∧ (applyOp Op.tick s).SJ2 = s.SJ2) := by
  have hk := key_scores k s
  have ht := tick_scores s
  have mono : s.SJ1 ≤ (applyOp op s).SJ1 ∧ s.SJ2 ≤ (applyOp op s).SJ2 := by
    cases op with
    | key k2 =>
      have hk2 := key_scores k2 s
      exact ⟨le_of_eq hk2.1.symm, le_of_eq hk2.2.symm⟩
    | tick =>
      show s.SJ1 ≤ (bouboule s).1.SJ1 ∧ s.SJ2 ≤ (bouboule s).1.SJ2
      by_cases h1 : (integrate s).bouleX < 1
      · obtain ⟨e2, e1⟩ := ht.1 h1
        rw [e1, e2]
        exact ⟨le_refl _, Nat.le_succ _⟩
      · by_cases h2 : (integrate s).bouleX > 612
        · obtain ⟨e1, e2⟩ := ht.2.1 h2
          rw [e1, e2]
          exact ⟨Nat.le_succ _, le_refl _⟩
        · obtain ⟨e1, e2⟩ := ht.2.2 h1 h2
          rw [e1, e2]
          exact ⟨le_refl _, le_refl _⟩
  exact ⟨mono.1, mono.2, hk, ht.1, ht.2.1, ht.2.2⟩

/-- Witness for C4 at the concrete state `wC4` (scores 3 and 5), whose
tick crosses the left baseline. -/
theorem score_monotone_and_attribution_witness :
    (integrate wC4).bouleX < 1 ∧
    (applyOp Op.tick wC4).SJ2 = wC4.SJ2 + 1 ∧ (applyOp Op.tick wC4).SJ1 = wC4.SJ1 := by
  have h : (integrate wC4).bouleX < 1 := by
    simp only [integrate, wC4]
    norm_num
  have r := (score_monotone_and_attribution wC4 Op.tick "s").2.2.2.1 h
  exact ⟨h, r.1, r.2⟩

/- ## Paddle collision helpers -/

theorem no_goal_of_paddleCond (s : GameState) (h : paddleCond (preCollision s)) :
    ¬ (integrate s).bouleX < 1 ∧ ¬ (integrate s).bouleX > 612 := by
  constructor <;> intro hg
  · obtain ⟨h306, -⟩ := preCollision_left s hg
    obtain ⟨hn1, hn2⟩ := no_paddle_at_306 _ h306
    rcases h with h | h
    · exact hn1 h
    · exact hn2 h
  · obtain ⟨h306, -⟩ := preCollision_right s hg
    obtain ⟨hn1, hn2⟩ := no_paddle_at_306 _ h306
    rcases h with h | h
    · exact hn1 h
    · exact hn2 h

theorem tick_hit_velocity (s : GameState) (h : paddleCond (preCollision s)) :
    (bouboule s).1.plusX = (preCollision s).plusX * (-1) * 1.259 ∧
    (bouboule s).1.plusY = (preCollision s).plusY * 1.259 := by
  have hb : (bouboule s).1 = paddleStep (preCollision s) := rfl
  have hit := paddleStep_hit _ h
  exact ⟨by rw [hb, hit.1], by rw [hb, hit.2.1]⟩

theorem tick_hit_abs (s : GameState) (h : paddleCond (preCollision s)) :
    |(bouboule s).1.plusX| = 1.259 * |s.plusX| ∧
    |(bouboule s).1.plusY| = 1.259 * |s.plusY| := by
  obtain ⟨h1, h2⟩ := no_goal_of_paddleCond s h
  have hpre := (preCollision_none s h1 h2).1
  have hv := tick_hit_velocity s h
  have habs : |(1.259 : ℚ)| = 1.259 := abs_of_pos (by norm_num)
  constructor
  · rw [hv.1, hpre, wallStep_plusX, integrate_plusX, abs_mul, abs_mul,
      abs_neg, abs_one, habs]
    ring
  · rw [hv.2, hpre, abs_mul, wallStep_absY, integrate_plusY, habs]
    ring

/-- C2: in every tick in which a paddle collision fires, the
pre-collision velocity (vx, vy) becomes exactly (-vx * 1.259, vy * 1.259),
and across two consecutive paddle hits the magnitudes of both components
are scaled by exactly 1.259 squared. -/
theorem paddle_hit_speedup (s : GameState) :
    (paddleCond (preCollision s) →
      (bouboule s).1.plusX = -(preCollision s).plusX * 1.259 ∧
      (bouboule s).1.plusY = (preCollision s).plusY * 1.259) ∧
    (paddleCond (preCollision s) → paddleCond (preCollision (bouboule s).1) →
      |(bouboule (bouboule s).1).1.plusX| = 1.259 ^ 2 * |s.plusX| ∧
      |(bouboule (bouboule s).1).1.plusY| = 1.259 ^ 2 * |s.plusY|) := by
  constructor
  · intro h
    have hv := tick_hit_velocity s h
    exact ⟨by rw [hv.1]; ring, hv.2⟩
  · intro hA hB
    have a := tick_hit_abs s hA
    have b := tick_hit_abs (bouboule s).1 hB
    constructor
    · rw [b.1, a.1]
      ring
    · rw [b.2, a.2]
      ring

/-- Witness for C2 at the concrete state `wC2`: its tick hits paddle 1
at (10, 200) and the rebound hits paddle 2 at (601.73, 200). -/
theorem paddle_hit_speedup_witness :
    paddleCond (preCollision wC2) ∧ paddleCond (preCollision (bouboule wC2).1) ∧
    (bouboule wC2).1.plusX = -(preCollision wC2).plusX * 1.259 ∧
    |(bouboule (bouboule wC2).1).1.plusX| = 1.259 ^ 2 * |wC2.plusX| ∧
    |(bouboule (bouboule wC2).1).1.plusY| = 1.259 ^ 2 * |wC2.plusY| := by
  have e1 : (bouboule wC2).1 =
      { bouleX := 10, bouleY := 200, plusX := 591.73, plusY := 0,
        a1 := 140, a2 := 140, SJ1 := 0, SJ2 := 0 } := by
    simp only [bouboule, wC2]
    norm_num
  have hA : paddleCond (preCollision wC2) := by
    simp only [paddleCond, paddle1Cond, paddle2Cond, preCollision, goalStep,
      wallStep, integrate, wC2]
    norm_num
  have hB : paddleCond (preCollision (bouboule wC2).1) := by
    rw [e1]
    simp only [paddleCond, paddle1Cond, paddle2Cond, preCollision, goalStep,
      wallStep, integrate]
    norm_num
  have r := (paddle_hit_speedup wC2).2 hA hB
  exact ⟨hA, hB, ((paddle_hit_speedup wC2).1 hA).1, r.1, r.2⟩

/-- C10: in every tick in which no goal branch fires, the magnitudes of
both velocity components are non-decreasing: integration leaves the
velocity unchanged, wall reflection only flips the sign of vy, and a
paddle hit scales both magnitudes by 1.259 > 1. -/
theorem no_goal_speed_monotone (s : GameState)
    (h1 : ¬ (integrate s).bouleX < 1) (h2 : ¬ (integrate s).bouleX > 612) :
    |s.plusX| ≤ |(bouboule s).1.plusX| ∧ |s.plusY| ≤ |(bouboule s).1.plusY| := by
  have hpre := (preCollision_none s h1 h2).1
  have hb : (bouboule s).1 = paddleStep (preCollision s) := rfl
  by_cases hp : paddleCond (preCollision s)
  · have a := tick_hit_abs s hp
    constructor
    · rw [a.1]
      have := abs_nonneg s.plusX
      linarith
    · rw [a.2]
      have := abs_nonneg s.plusY
      linarith
  · unfold paddleCond at hp
    have hn := not_or.mp hp
    have e := paddleStep_none _ hn.1 hn.2
    constructor
    · apply le_of_eq
      rw [hb, e, hpre, wallStep_plusX, integrate_plusX]
    · apply le_of_eq
      rw [hb, e, hpre, wallStep_absY, integrate_plusY]

/-- Witness for C10 at the initial state, whose tick fires no goal. -/
theorem no_goal_speed_monotone_witness :
    ¬ (integrate initState).bouleX < 1 ∧ ¬ (integrate initState).bouleX > 612 ∧
    (|initState.plusX| ≤ |(bouboule initState).1.plusX| ∧
     |initState.plusY| ≤ |(bouboule initState).1.plusY|) := by
  have h1 : ¬ (integrate initState).bouleX < 1 := by
    simp only [integrate, initState]
    norm_num
  have h2 : ¬ (integrate initState).bouleX > 612 := by
    simp only [integrate, initState]
    norm_num
  exact ⟨h1, h2, no_goal_speed_monotone initState h1 h2⟩

/- ## Key handler helpers -/

theorem controls_a1_bounds (k : String) (s : GameState)
    (h1 : -25 ≤ s.a1) (h2 : s.a1 ≤ 446) :
    -25 ≤ (ControlesJ1etJ2 k s).a1 ∧ (ControlesJ1etJ2 k s).a1 ≤ 446 := by
  unfold ControlesJ1etJ2
  split_ifs with g1 g2 g3 g4
  · obtain ⟨-, g⟩ := g1
    constructor
    · show -25 ≤ s.a1 + 25
      omega
    · show s.a1 + 25 ≤ 446
      omega
  · obtain ⟨-, g⟩ := g2
    constructor
    · show -25 ≤ s.a1 - 25
      omega
    · show s.a1 - 25 ≤ 446
      omega
  · exact ⟨h1, h2⟩
  · exact ⟨h1, h2⟩
  · exact ⟨h1, h2⟩

theorem controls_a2_bounds (k : String) (s : GameState)
    (h1 : -25 ≤ s.a2) (h2 : s.a2 ≤ 446) :
    -25 ≤ (ControlesJ1etJ2 k s).a2 ∧ (ControlesJ1etJ2 k s).a2 ≤ 446 := by
  unfold ControlesJ1etJ2
  split_ifs with g1 g2 g3 g4
  · exact ⟨h1, h2⟩
  · exact ⟨h1, h2⟩
  · obtain ⟨-, g⟩ := g3
    constructor
    · show -25 ≤ s.a2 + 25
      omega
    · show s.a2 + 25 ≤ 446
      omega
  · obtain ⟨-, g⟩ := g4
    constructor
    · show -25 ≤ s.a2 - 25
      omega
    · show s.a2 - 25 ≤ 446
      omega
  · exact ⟨h1, h2⟩

theorem applyKeys_bounds (ks : List String) (s : GameState)
    (h : -25 ≤ s.a1 ∧ s.a1 ≤ 446 ∧ -25 ≤ s.a2 ∧ s.a2 ≤ 446) :
    -25 ≤ (applyKeys ks s).a1 ∧ (applyKeys ks s).a1 ≤ 446 ∧
    -25 ≤ (applyKeys ks s).a2 ∧ (applyKeys ks s).a2 ≤ 446 := by
  induction ks generalizing s with
  | nil => exact h
  | cons k ks ih =>
    have e : applyKeys (k :: ks) s = applyKeys ks (ControlesJ1etJ2 k s) := rfl
    rw [e]
    apply ih
    obtain ⟨b1, b2⟩ := controls_a1_bounds k s h.1 h.2.1
    obtain ⟨b3, b4⟩ := controls_a2_bounds k s h.2.2.1 h.2.2.2
    exact ⟨b1, b2, b3, b4⟩

/-- C6: each recognized key moves exactly its paddle by exactly 25, and
only when the bound guard passes; a failed guard or an unrecognized key
changes nothing; at most one paddle changes per event; and both paddle
top edges stay in [-25, 446] across every sequence of key events from
the initial state. -/
theorem key_handler_rules (k : String) (s : GameState) (ks : List String) :
    ((ControlesJ1etJ2 k s).a1 = s.a1 ∨ (ControlesJ1etJ2 k s).a2 = s.a2) ∧
    (k = "s" → s.a1 + 25 ≤ 446 → ControlesJ1etJ2 k s = { s with a1 := s.a1 + 25 }) ∧
    (k = "s" → ¬ s.a1 + 25 ≤ 446 → ControlesJ1etJ2 k s = s) ∧
    (k = "z" → s.a1 - 25 ≥ -25 → ControlesJ1etJ2 k s = { s with a1 := s.a1 - 25 }) ∧
    (k = "z" → ¬ s.a1 - 25 ≥ -25 → ControlesJ1etJ2 k s = s) ∧
    (k = "Down" → s.a2 + 25 ≤ 446 → ControlesJ1etJ2 k s = { s with a2 := s.a2 + 25 }) ∧
    (k = "Down" → ¬ s.a2 + 25 ≤ 446 → ControlesJ1etJ2 k s = s) ∧
    (k = "Up" → s.a2 - 25 ≥ -25 → ControlesJ1etJ2 k s = { s with a2 := s.a2 - 25 }) ∧
    (k = "Up" → ¬ s.a2 - 25 ≥ -25 → ControlesJ1etJ2 k s = s) ∧
    (k ≠ "s" → k ≠ "z" → k ≠ "Down" → k ≠ "Up" → ControlesJ1etJ2 k s = s) ∧
    (-25 ≤ s.a1 → s.a1 ≤ 446 →
      -25 ≤ (ControlesJ1etJ2 k s).a1 ∧ (ControlesJ1etJ2 k s).a1 ≤ 446) ∧
    (-25 ≤ s.a2 → s.a2 ≤ 446 →
      -25 ≤ (ControlesJ1etJ2 k s).a2 ∧ (ControlesJ1etJ2 k s).a2 ≤ 446) ∧
    (-25 ≤ (applyKeys ks initState).a1 ∧ (applyKeys ks initState).a1 ≤ 446 ∧
     -25 ≤ (applyKeys ks initState).a2 ∧ (applyKeys ks initState).a2 ≤ 446) := by
  have hsz : ("s" : String) ≠ "z" := by decide
  have hsd : ("s" : String) ≠ "Down" := by decide
  have hsu : ("s" : String) ≠ "Up" := by decide
  have hzs : ("z" : String) ≠ "s" := by decide
  have hzd : ("z" : String) ≠ "Down" := by decide
  have hzu : ("z" : String) ≠ "Up" := by decide
  have hds : ("Down" : String) ≠ "s" := by decide
  have hdz : ("Down" : String) ≠ "z" := by decide
  have hdu : ("Down" : String) ≠ "Up" := by decide
  have hus : ("Up" : String) ≠ "s" := by decide
  have huz : ("Up" : String) ≠ "z" := by decide
  have hud : ("Up" : String) ≠ "Down" := by decide
  refine ⟨?_, ?_, ?_, ?_, ?_, ?_, ?_, ?_, ?_, ?_,
    controls_a1_bounds k s, controls_a2_bounds k s,
    applyKeys_bounds ks initState (by decide)⟩
  · unfold ControlesJ1etJ2
    split_ifs <;> simp
  · intro hk hg
    subst hk
    unfold ControlesJ1etJ2
    rw [if_pos ⟨rfl, hg⟩]
  · intro hk hg
    subst hk
    unfold ControlesJ1etJ2
    rw [if_neg (fun hc => hg hc.2), if_neg (fun hc => hsz hc.1),
      if_neg (fun hc => hsd hc.1), if_neg (fun hc => hsu hc.1)]
  · intro hk hg
    subst hk
    unfold ControlesJ1etJ2
    rw [if_neg (fun hc => hzs hc.1), if_pos ⟨rfl, hg⟩]
  · intro hk hg
    subst hk
    unfold ControlesJ1etJ2
    rw [if_neg (fun hc => hzs hc.1), if_neg (fun hc => hg hc.2),
      if_neg (fun hc => hzd hc.1), if_neg (fun hc => hzu hc.1)]
  · intro hk hg
    subst hk
    unfold ControlesJ1etJ2
    rw [if_neg (fun hc => hds hc.1), if_neg (fun hc => hdz hc.1), if_pos ⟨rfl, hg⟩]
  · intro hk hg
    subst hk
    unfold ControlesJ1etJ2
    rw [if_neg (fun hc => hds hc.1), if_neg (fun hc => hdz hc.1),
      if_neg (fun hc => hg hc.2), if_neg (fun hc => hdu hc.1)]
  · intro hk hg
    subst hk
    unfold ControlesJ1etJ2
    rw [if_neg (fun hc => hus hc.1), if_neg (fun hc => huz hc.1),
      if_neg (fun hc => hud hc.1), if_pos ⟨rfl, hg⟩]
  · intro hk hg
    subst hk
    unfold ControlesJ1etJ2
    rw [if_neg (fun hc => hus hc.1), if_neg (fun hc => huz hc.1),
      if_neg (fun hc => hud hc.1), if_neg (fun hc => hg hc.2)]
  · intro h1 h2 h3 h4
    unfold ControlesJ1etJ2
    rw [if_neg (fun hc => h1 hc.1), if_neg (fun hc => h2 hc.1),
      if_neg (fun hc => h3 hc.1), if_neg (fun hc => h4 hc.1)]

/-- Witness for C6: pressing `s` at the initial state moves paddle 1
down by 25, and the bound guards hold there. -/
theorem key_handler_rules_witness :
    ControlesJ1etJ2 "s" initState = { initState with a1 := initState.a1 + 25 } ∧
    (-25 ≤ (ControlesJ1etJ2 "s" initState).a1 ∧
      (ControlesJ1etJ2 "s" initState).a1 ≤ 446) := by
  obtain ⟨c1, c2, c3, c4, c5, c6, c7, c8, c9, c10, c11, c12, c13⟩ :=
    key_handler_rules "s" initState ["s", "z"]
  exact ⟨c2 rfl (by decide), c11 (by decide) (by decide)⟩

/- ## Reachable paddle positions -/

theorem controls_step_inv (k : String) (s : GameState)
    (h1 : -10 ≤ s.a1 ∧ s.a1 ≤ 440 ∧ s.a1 % 25 = 15)
    (h2 : -10 ≤ s.a2 ∧ s.a2 ≤ 440 ∧ s.a2 % 25 = 15) :
    (-10 ≤ (ControlesJ1etJ2 k s).a1 ∧ (ControlesJ1etJ2 k s).a1 ≤ 440 ∧
      (ControlesJ1etJ2 k s).a1 % 25 = 15) ∧
    (-10 ≤ (ControlesJ1etJ2 k s).a2 ∧ (ControlesJ1etJ2 k s).a2 ≤ 440 ∧
      (ControlesJ1etJ2 k s).a2 % 25 = 15) := by
  obtain ⟨a, b, c⟩ := h1
  obtain ⟨d, e, f⟩ := h2
  unfold ControlesJ1etJ2
  split_ifs with g1 g2 g3 g4
  · obtain ⟨-, g⟩ := g1
    refine ⟨⟨?_, ?_, ?_⟩, d, e, f⟩
    · show -10 ≤ s.a1 + 25
      omega
    · show s.a1 + 25 ≤ 440
      omega
    · show (s.a1 + 25) % 25 = 15
      omega
  · obtain ⟨-, g⟩ := g2
    refine ⟨⟨?_, ?_, ?_⟩, d, e, f⟩
    · show -10 ≤ s.a1 - 25
      omega
    · show s.a1 - 25 ≤ 440
      omega
    · show (s.a1 - 25) % 25 = 15
      omega
  · obtain ⟨-, g⟩ := g3
    refine ⟨⟨a, b, c⟩, ?_, ?_, ?_⟩
    · show -10 ≤ s.a2 + 25
      omega
    · show s.a2 + 25 ≤ 440
      omega
    · show (s.a2 + 25) % 25 = 15
      omega
  · obtain ⟨-, g⟩ := g4
    refine ⟨⟨a, b, c⟩, ?_, ?_, ?_⟩
    · show -10 ≤ s.a2 - 25
      omega
    · show s.a2 - 25 ≤ 440
      omega
    · show (s.a2 - 25) % 25 = 15
      omega
  · exact ⟨⟨a, b, c⟩, d, e, f⟩

theorem applyKeys_inv (ks : List String) (s : GameState)
    (h1 : -10 ≤ s.a1 ∧ s.a1 ≤ 440 ∧ s.a1 % 25 = 15)
    (h2 : -10 ≤ s.a2 ∧ s.a2 ≤ 440 ∧ s.a2 % 25 = 15) :
    (-10 ≤ (applyKeys ks s).a1 ∧ (applyKeys ks s).a1 ≤ 440 ∧
      (applyKeys ks s).a1 % 25 = 15) ∧
    (-10 ≤ (applyKeys ks s).a2 ∧ (applyKeys ks s).a2 ≤ 440 ∧
      (applyKeys ks s).a2 % 25 = 15) := by
  induction ks generalizing s with
  | nil => exact ⟨h1, h2⟩
  | cons k ks ih =>
    have e : applyKeys (k :: ks) s = applyKeys ks (ControlesJ1etJ2 k s) := rfl
    rw [e]
    obtain ⟨p, q⟩ := controls_step_inv k s h1 h2
    exact ih _ p q

/-- C9: starting from top edge 140, every paddle position reachable by
key events lies in [-10, 440] and is congruent to 15 modulo 25, strictly
inside the spec's [-25, 446] tolerance band. -/
theorem reachable_paddle_tops (ks : List String) :
    (-10 ≤ (applyKeys ks initState).a1 ∧ (applyKeys ks initState).a1 ≤ 440 ∧
      (applyKeys ks initState).a1 % 25 = 15) ∧
    (-10 ≤ (applyKeys ks initState).a2 ∧ (applyKeys ks initState).a2 ≤ 440 ∧
      (applyKeys ks initState).a2 % 25 = 15) :=
  applyKeys_inv ks initState (by decide) (by decide)

/- ## Label text -/

/-- C8 counterexample: at the concrete state `wC8` a goal for player 2
fires with new count 1, and the emitted label text is "J2:1" — the code
concatenates "J2:" directly with the count, so the claimed format
"J2: 1" (colon followed by a space) is not what is emitted. -/
theorem label_space_counterexample :
    (bouboule wC8).2 = [(2, "J2:1")] ∧ (bouboule wC8).2 ≠ [(2, "J2: 1")] := by
  have h : (integrate wC8).bouleX < 1 := by
    simp only [integrate, wC8]
    norm_num
  have e2 : (bouboule wC8).2 = (goalStep (wallStep (integrate wC8))).2 := rfl
  have ev := (preCollision_left wC8 h).2.2.2.2.2.2
  constructor
  · rw [e2, ev]
    decide
  · rw [e2, ev]
    decide

/-- C8 amended: on every goal the label text emitted to the display for
the scoring player n with new count c is "J<n>:<c>" — player tag, colon,
then the count, with no space after the colon — and no label is emitted
in a tick without a goal. -/
theorem label_format_amended (s : GameState) :
    ((integrate s).bouleX < 1 →
      (bouboule s).2 = [(2, "J2:" ++ toString (s.SJ2 + 1))]) ∧
    ((integrate s).bouleX > 612 →
      (bouboule s).2 = [(1, "J1:" ++ toString (s.SJ1 + 1))]) ∧
    (¬ (integrate s).bouleX < 1 → ¬ (integrate s).bouleX > 612 →
      (bouboule s).2 = []) := by
  have e2 : (bouboule s).2 = (goalStep (wallStep (integrate s))).2 := rfl
  refine ⟨fun h => ?_, fun h => ?_, fun h1 h2 => ?_⟩
  · rw [e2]
    exact (preCollision_left s h).2.2.2.2.2.2
  · rw [e2]
    exact (preCollision_right s h).2.2.2.2.2.2
  · rw [e2]
    exact (preCollision_none s h1 h2).2

/-- Witness for the amended C8 at the concrete state `wC8`. -/
theorem label_format_amended_witness :
    (integrate wC8).bouleX < 1 ∧
    (bouboule wC8).2 = [(2, "J2:" ++ toString (wC8.SJ2 + 1))] := by
  have h : (integrate wC8).bouleX < 1 := by
    simp only [integrate, wC8]
    norm_num
  exact ⟨h, (label_format_amended wC8).1 h⟩
